import Mathlib

/-!
Shallow embedding of `src/script.js` (AI Prompt Generator) and proofs of its
specification claims.

The core logic of the program is pure: intent classification (`detectIntent`),
five prompt template builders (`buildOOOPrompt`, `buildGenericPrompt`,
`buildStatusUpdatePrompt`, `buildProductReqPrompt`, `buildPrdPrompt`), the
library matcher (`bestLibraryMatch`) and the library formatter
(`formatLibraryPrompt`).  DOM wiring, clipboard and fetch are out of scope.

JavaScript strings are modelled as Lean `String`.  A value that may be `null`
or `undefined` at the public interface (the argument of `normalize`, hence of
`detectIntent` and `bestLibraryMatch`) is modelled as `Option String`, `none`
standing for any non-string falsy value (`null`, `undefined`, ...), all of
which `(s || '')` coerces to the empty string; a present string is `some s`
(the empty string is also falsy in JS, but `("" || '')` is `""` as well, so
`Option.getD "" ` is faithful on every input).
-/

namespace PromptGen

/-- JS `(s || '')` on a possibly-nullish string value. -/
def jsOrEmpty (s : Option String) : String := s.getD ""

/-- JS `String.prototype.toLowerCase`, modelled character-wise with
`Char.toLower` (the ASCII case mapping; every keyword the program matches is
ASCII). -/
def jsToLower (s : String) : String := String.mk (s.data.map Char.toLower)

/-- JS `String.prototype.trim`: drop whitespace from both ends. -/
def jsTrim (s : String) : String :=
  String.mk ((((s.data.dropWhile Char.isWhitespace).reverse).dropWhile Char.isWhitespace).reverse)

/-- Function `normalize` from `script.js`: `(s || '').toLowerCase().trim()`. -/
def normalize (s : Option String) : String := jsTrim (jsToLower (jsOrEmpty s))

/-! ### Regex word-boundary matching

Each pattern in `detectIntent` has the shape `\b(alt1|alt2|...)\b` where every
alternative is a literal (possibly containing spaces or hyphens), and the test
is `RegExp.test`, i.e. "does the pattern match anywhere in the string".  We
model this directly: a JS word character is `[A-Za-z0-9_]`, and `\b` holds at
a junction iff exactly one of the two adjacent characters is a word character
(a missing character at the edge of the string counts as a non-word
character). -/

/-- JS regex word character: `[A-Za-z0-9_]`. -/
def isWordChar (c : Char) : Bool :=
  (('a' ≤ c && c ≤ 'z') || ('A' ≤ c && c ≤ 'Z') || ('0' ≤ c && c ≤ '9') || c == '_')

/-- Predicate for `\b`: it holds between an optional left character and an optional right
character iff exactly one side is a word character. -/
def isBoundary (a b : Option Char) : Bool :=
  (a.elim false isWordChar) != (b.elim false isWordChar)

/-- The literal `p` matches at the current position of `s` (whose previous
character, if any, is `prev`) with `\b` holding on both sides. -/
def matchHere (prev : Option Char) (s p : List Char) : Bool :=
  p.isPrefixOf s
    && isBoundary prev p.head?
    && isBoundary p.getLast? (s.drop p.length).head?

/-- Search `s` left to right for a position where `p` matches with word
boundaries on both sides; `prev` is the character just before `s`. -/
def searchWB (prev : Option Char) (s : List Char) (p : List Char) : Bool :=
  match s with
  | [] => matchHere prev [] p
  | c :: rest => matchHere prev (c :: rest) p || searchWB (some c) rest p

/-- Model of `RegExp.test` for a pattern `\b(alt1|...|altk)\b` of literal
alternatives, applied to the whole string. -/
def testPattern (s : String) (alts : List String) : Bool :=
  alts.any (fun p => searchWB none s.data p.data)

/-- Alternatives of the out-of-office pattern
`\b(ooo|out of office|out-of-office|vacation|leave|out of the office)\b`. -/
def oooAlts : List String :=
  ["ooo", "out of office", "out-of-office", "vacation", "leave", "out of the office"]

/-- Alternatives of the status-update pattern
`\b(stakeholder|update|status|weekly update|progress report)\b`. -/
def statusAlts : List String :=
  ["stakeholder", "update", "status", "weekly update", "progress report"]

/-- Alternatives of the product-requirement pattern
`\b(user story|acceptance criteria|ac|feature request)\b`. -/
def productReqAlts : List String :=
  ["user story", "acceptance criteria", "ac", "feature request"]

/-- Alternatives of the PRD pattern
`\b(prd|requirements doc|product requirements)\b`. -/
def prdAlts : List String :=
  ["prd", "requirements doc", "product requirements"]

/-- Function `detectIntent` from `script.js`: normalize, then test the four pattern
sets in order, returning the tag of the first that matches, else
`"generic"`. -/
def detectIntent (need : Option String) : String :=
  let n := normalize need
  if testPattern n oooAlts then "ooo"
  else if testPattern n statusAlts then "status_update"
  else if testPattern n productReqAlts then "product_req"
  else if testPattern n prdAlts then "prd"
  else "generic"

/-! ### Prompt template builders -/

/-- The `{title, text}` object produced by every builder and displayed by the
UI. -/
structure GeneratedPrompt where
  title : String
  text : String
deriving DecidableEq

/-- Function `buildOOOPrompt` from `script.js`. -/
def buildOOOPrompt (need tone length format : String) : GeneratedPrompt :=
  { title := "Generated: Out-of-office message"
    text :=
      "You are an expert communications assistant.\n\n" ++
      "Task:\nCreate an out-of-office (OOO) message based on the user’s input.\n\n" ++
      "User input:\n\"" ++ need ++ "\"\n\n" ++
      "Requirements:\n" ++
      "- Tone: " ++ tone ++ "\n" ++
      "- Length: " ++ length ++ "\n" ++
      "- Channel/format: " ++ format ++ "\n" ++
      "- Include: dates (if mentioned), who to contact for urgent issues, and what the sender will do when back.\n" ++
      "- If dates are missing, ask 2 quick questions at the end OR provide 2 variants (with placeholders).\n\n" ++
      "Output:\n1) Final OOO message (ready to copy/paste)\n2) Optional: 1 shorter variant" }

/-- Function `buildGenericPrompt` from `script.js`. -/
def buildGenericPrompt (need tone length format : String) : GeneratedPrompt :=
  { title := "Generated: Structured prompt from your need"
    text :=
      "You are a senior Product + Delivery assistant.\n\n" ++
      "Goal:\nHelp me with this request:\n\"" ++ need ++ "\"\n\n" ++
      "Instructions:\n" ++
      "- Ask up to 3 clarifying questions ONLY if absolutely required. Otherwise proceed with reasonable assumptions (and list them).\n" ++
      "- Keep the tone " ++ tone ++ ".\n" ++
      "- Keep the length " ++ length ++ ".\n" ++
      "- Output in " ++ format ++ " format.\n\n" ++
      "Output structure:\n" ++
      "1) Assumptions (if any)\n" ++
      "2) The main deliverable (fully written)\n" ++
      "3) Next steps / checklist" }

/-- Function `buildStatusUpdatePrompt` from `script.js`. -/
def buildStatusUpdatePrompt (need tone length format : String) : GeneratedPrompt :=
  { title := "Generated: Stakeholder status update"
    text :=
      "You are an executive communications assistant.\n\n" ++
      "Task:\nCraft a status update based on the user’s input.\n\n" ++
      "User input:\n\"" ++ need ++ "\"\n\n" ++
      "Requirements:\n" ++
      "- Tone: " ++ tone ++ "\n" ++
      "- Length: " ++ length ++ "\n" ++
      "- Channel/format: " ++ format ++ "\n" ++
      "- Summarise progress, blockers, and next steps clearly.\n" ++
      "- Highlight any risks or escalations.\n\n" ++
      "Output:\n1) Status update message (ready to send)\n2) Optional: bullet points summarising key takeaways" }

/-- Function `buildProductReqPrompt` from `script.js`. -/
def buildProductReqPrompt (need tone length format : String) : GeneratedPrompt :=
  { title := "Generated: User story / requirement"
    text :=
      "You are a product discovery assistant.\n\n" ++
      "Task:\nCreate a user story or requirement based on the user’s input.\n\n" ++
      "User input:\n\"" ++ need ++ "\"\n\n" ++
      "Requirements:\n" ++
      "- Tone: " ++ tone ++ "\n" ++
      "- Length: " ++ length ++ "\n" ++
      "- Channel/format: " ++ format ++ "\n" ++
      "- Use the template: “As a [persona], I want [need] so that [reason]”.\n" ++
      "- Define acceptance criteria clearly.\n\n" ++
      "Output:\n1) User story statement\n2) Acceptance criteria (bulleted)" }

/-- Function `buildPrdPrompt` from `script.js`. -/
def buildPrdPrompt (need tone length format : String) : GeneratedPrompt :=
  { title := "Generated: Product Requirements Document (PRD)"
    text :=
      "You are a product strategy assistant.\n\n" ++
      "Task:\nDraft a Product Requirements Document (PRD) based on the user’s input.\n\n" ++
      "User input:\n\"" ++ need ++ "\"\n\n" ++
      "Requirements:\n" ++
      "- Tone: " ++ tone ++ "\n" ++
      "- Length: " ++ length ++ "\n" ++
      "- Channel/format: " ++ format ++ "\n" ++
      "- Include sections: Problem statement, Goals, Scope (in/out), User stories, Success metrics, Risks.\n" ++
      "- Summarise stakeholders and timeline if applicable.\n\n" ++
      "Output:\n1) PRD outline\n2) Checklist of next steps" }

/-- The intent `switch` of the `generateFromNeedBtn` click handler: one
builder per registered intent tag, `buildGenericPrompt` in the `default`
branch. -/
def dispatchIntent (intent : String) (need tone length format : String) : GeneratedPrompt :=
  if intent = "ooo" then buildOOOPrompt need tone length format
  else if intent = "status_update" then buildStatusUpdatePrompt need tone length format
  else if intent = "product_req" then buildProductReqPrompt need tone length format
  else if intent = "prd" then buildPrdPrompt need tone length format
  else buildGenericPrompt need tone length format

/-- The generate-from-need pipeline of the click handler, after its empty
check: classify the need, then dispatch to a builder. -/
def generateFromNeed (need tone length format : String) : GeneratedPrompt :=
  dispatchIntent (detectIntent (some need)) need tone length format

/-! ### Library matcher -/

/-- A library entry loaded from `prompts.json`; every field is optional
free text. -/
structure PromptRecord where
  title : Option String
  instruction : Option String
  inputs : Option String
  output : Option String
  success_criteria : Option String
  follow_up : Option String
deriving DecidableEq

/-- JS `String.prototype.includes`: substring containment on the character
sequences. -/
def jsIncludes (hay tok : String) : Bool := decide (tok.data <:+: hay.data)

/-- The haystack of a record in `bestLibraryMatch`:
`normalize(`title instruction output`)` with missing fields as '' and a
single space between the three fields. -/
def recordHaystack (p : PromptRecord) : String :=
  normalize (some (jsOrEmpty p.title ++ " " ++ jsOrEmpty p.instruction ++ " " ++ jsOrEmpty p.output))

/-- JS `q.split(/\s+/).filter(Boolean)`: the maximal runs of
non-whitespace characters of `q`, in order.  (`Char.isWhitespace` models the
regex class `\s`.) -/
def splitWsAux : List Char → List Char → List String
  | cur, [] => if cur.isEmpty then [] else [String.mk cur.reverse]
  | cur, c :: rest =>
    if c.isWhitespace then
      if cur.isEmpty then splitWsAux [] rest
      else String.mk cur.reverse :: splitWsAux [] rest
    else splitWsAux (c :: cur) rest

/-- Tokenization of the normalized query in `bestLibraryMatch`. -/
def splitTokens (q : String) : List String := splitWsAux [] q.data

/-- The inner scoring loop of `bestLibraryMatch`: one point per token of the
(raw, non-deduplicated) token list that `hay.includes`. -/
def scoreAgainst (hay : String) (tokens : List String) : Nat :=
  tokens.foldl (fun score tok => if jsIncludes hay tok then score + 1 else score) 0

/-- Function `bestLibraryMatch` from `script.js`, with the global `PROMPTS` passed as
the `prompts` argument. -/
def bestLibraryMatch (need : Option String) (prompts : List PromptRecord) : Option PromptRecord :=
  let q := normalize need
  if q = "" ∨ prompts = [] then none
  else
    let tokens := splitTokens q
    let acc := prompts.foldl
      (fun (acc : Option PromptRecord × Nat) p =>
        let score := scoreAgainst (recordHaystack p) tokens
        if score > acc.2 then (some p, score) else acc)
      (none, 0)
    if acc.2 > 0 then acc.1 else none

/-- Function `formatLibraryPrompt` from `script.js`. -/
def formatLibraryPrompt (p : PromptRecord) : String :=
  "Instruction:\n" ++ jsOrEmpty p.instruction ++ "\n\n" ++
  "Inputs:\n" ++ jsOrEmpty p.inputs ++ "\n\n" ++
  "Output:\n" ++ jsOrEmpty p.output ++ "\n\n" ++
  "Success criteria:\n" ++ jsOrEmpty p.success_criteria ++ "\n\n" ++
  "Follow-up:\n" ++ jsOrEmpty p.follow_up

/-! ### Spec-side definitions (from the specification's words, for the
refinement claims) -/

/-- From the spec of the Library Matcher: the maximum score over all
records. -/
def maxScore (tokens : List String) (prompts : List PromptRecord) : Nat :=
  (prompts.map (fun p => scoreAgainst (recordHaystack p) tokens)).foldr max 0

/-- Function `bestMatch` as the spec words it: none when the normalized need is
empty, the library is empty, or the best score is 0; otherwise the first
record in library order attaining the maximum score. -/
def specBestMatch (need : Option String) (prompts : List PromptRecord) : Option PromptRecord :=
  let q := normalize need
  if q = "" ∨ prompts = [] then none
  else
    let tokens := splitTokens q
    let m := maxScore tokens prompts
    if m = 0 then none
    else prompts.find? (fun p => scoreAgainst (recordHaystack p) tokens == m)

/-- The accumulator loop of `bestLibraryMatch`, abstracted over the scoring
function: fold over the records, replacing the current `(best, bestScore)`
pair whenever a record's score strictly exceeds the current best score. -/
def pickLoop {α : Type*} (f : α → Nat) (l : List α) (acc : Option α × Nat) : Option α × Nat :=
  l.foldl (fun acc p => if f p > acc.2 then (some p, f p) else acc) acc

/-- Maximum of `f` over a list (0 on the empty list). -/
def maxOver {α : Type*} (f : α → Nat) (l : List α) : Nat :=
  (l.map f).foldr max 0

/-- A concrete library record, used to instantiate theorems with
hypotheses. -/
def sprintRec : PromptRecord :=
  ⟨some "Sprint planning", some "plan a sprint", none, some "backlog", none, none⟩

/-! ### Substring containment on strings -/

/-- Containment: `sub` occurs verbatim as a contiguous substring of `hay`. -/
def strContains (hay sub : String) : Prop := sub.data <:+: hay.data

theorem strContains_self (s : String) : strContains s s := List.infix_refl s.data

theorem strContains_appL {a : String} {s : String} (b : String) (h : strContains a s) :
    strContains (a ++ b) s := by
  obtain ⟨u, v, huv⟩ := h
  exact ⟨u, v ++ b.data, by rw [String.data_append, ← huv]; simp⟩

theorem strContains_appR (a : String) {b : String} {s : String} (h : strContains b s) :
    strContains (a ++ b) s := by
  obtain ⟨u, v, huv⟩ := h
  exact ⟨a.data ++ u, v, by rw [String.data_append, ← huv]; simp⟩

end PromptGen

namespace PromptGen

/-- C4: for all inputs (arbitrary strings, no validation), the text of
`buildOOOPrompt` contains the original need and the supplied tone, length and
format verbatim as substrings, and the title is the fixed string
`"Generated: Out-of-office message"`, independent of the inputs. -/
theorem buildOOOPrompt_echoes_inputs (need tone length format : String) :
    (buildOOOPrompt need tone length format).title = "Generated: Out-of-office message" ∧
    strContains (buildOOOPrompt need tone length format).text need ∧
    strContains (buildOOOPrompt need tone length format).text tone ∧
    strContains (buildOOOPrompt need tone length format).text length ∧
    strContains (buildOOOPrompt need tone length format).text format := by
  refine ⟨rfl, ?_, ?_, ?_, ?_⟩ <;>
    · show strContains _ _
      unfold buildOOOPrompt
      repeat first
        | exact strContains_appR _ (strContains_self _)
        | apply strContains_appL

/-- C5: `formatLibraryPrompt` renders any record, with any subset of fields
missing, into a single text carrying the five fixed section headers
Instruction, Inputs, Output, Success criteria, Follow-up in that order, each
missing field rendered as the empty string; on the all-missing record the
bodies are empty.  (The function is a total Lean function, so it never
raises.) -/
theorem formatLibraryPrompt_sections (p : PromptRecord) :
    (∃ a b c d e : String,
      formatLibraryPrompt p =
        "Instruction:\n" ++ (a ++ ("Inputs:\n" ++ (b ++ ("Output:\n" ++
          (c ++ ("Success criteria:\n" ++ (d ++ ("Follow-up:\n" ++ e)))))))) ∧
      a = jsOrEmpty p.instruction ++ "\n\n" ∧
      b = jsOrEmpty p.inputs ++ "\n\n" ∧
      c = jsOrEmpty p.output ++ "\n\n" ∧
      d = jsOrEmpty p.success_criteria ++ "\n\n" ∧
      e = jsOrEmpty p.follow_up) ∧
    formatLibraryPrompt ⟨none, none, none, none, none, none⟩ =
      "Instruction:\n\n\nInputs:\n\n\nOutput:\n\n\nSuccess criteria:\n\n\nFollow-up:\n" := by
  constructor
  · refine ⟨_, _, _, _, _, ?_, rfl, rfl, rfl, rfl, rfl⟩
    apply String.ext
    unfold formatLibraryPrompt
    simp [String.data_append]
  · decide

/-- C7: the generate-from-need dispatch maps each registered intent tag to
exactly its builder, uses the generic builder for every other intent value,
and hence always produces a `{title, text}` output. -/
theorem dispatchIntent_spec (need tone length format : String) :
    dispatchIntent "ooo" need tone length format = buildOOOPrompt need tone length format ∧
    dispatchIntent "status_update" need tone length format
      = buildStatusUpdatePrompt need tone length format ∧
    dispatchIntent "product_req" need tone length format
      = buildProductReqPrompt need tone length format ∧
    dispatchIntent "prd" need tone length format = buildPrdPrompt need tone length format ∧
    (∀ intent : String, intent ≠ "ooo" → intent ≠ "status_update" →
      intent ≠ "product_req" → intent ≠ "prd" →
      dispatchIntent intent need tone length format = buildGenericPrompt need tone length format) ∧
    generateFromNeed need tone length format
      = dispatchIntent (detectIntent (some need)) need tone length format := by
  refine ⟨rfl, rfl, rfl, rfl, ?_, rfl⟩
  intro intent h1 h2 h3 h4
  unfold dispatchIntent
  rw [if_neg h1, if_neg h2, if_neg h3, if_neg h4]

/-- C7 witness: the dispatch theorem applied at concrete inputs, with the
fallback instantiated at an unregistered intent tag. -/
theorem dispatchIntent_spec_witness :
    dispatchIntent "mystery" "n" "t" "l" "f" = buildGenericPrompt "n" "t" "l" "f" :=
  (dispatchIntent_spec "n" "t" "l" "f").2.2.2.2.1 "mystery"
    (by decide) (by decide) (by decide) (by decide)

/-- C8: every builder is a deterministic pure function: two calls on
componentwise-equal inputs yield identical `{title, text}` outputs. -/
theorem builders_deterministic (n₁ t₁ l₁ f₁ n₂ t₂ l₂ f₂ : String)
    (hn : n₁ = n₂) (ht : t₁ = t₂) (hl : l₁ = l₂) (hf : f₁ = f₂) :
    buildOOOPrompt n₁ t₁ l₁ f₁ = buildOOOPrompt n₂ t₂ l₂ f₂ ∧
    buildGenericPrompt n₁ t₁ l₁ f₁ = buildGenericPrompt n₂ t₂ l₂ f₂ ∧
    buildStatusUpdatePrompt n₁ t₁ l₁ f₁ = buildStatusUpdatePrompt n₂ t₂ l₂ f₂ ∧
    buildProductReqPrompt n₁ t₁ l₁ f₁ = buildProductReqPrompt n₂ t₂ l₂ f₂ ∧
    buildPrdPrompt n₁ t₁ l₁ f₁ = buildPrdPrompt n₂ t₂ l₂ f₂ := by
  subst hn ht hl hf
  exact ⟨rfl, rfl, rfl, rfl, rfl⟩

/-- C1: `detectIntent` normalizes the need (lowercase, trim) and returns the
tag of the first pattern set, in the fixed order ooo, status_update,
product_req, prd, that matches somewhere in the normalized text, and
`"generic"` when none matches; in particular a need containing both an
out-of-office phrase and a status-update phrase resolves to `"ooo"`. -/
theorem detectIntent_first_match (need : Option String) :
    (detectIntent need = "ooo" ↔ testPattern (normalize need) oooAlts = true) ∧
    (detectIntent need = "status_update" ↔
      (testPattern (normalize need) oooAlts = false ∧
       testPattern (normalize need) statusAlts = true)) ∧
    (detectIntent need = "product_req" ↔
      (testPattern (normalize need) oooAlts = false ∧
       testPattern (normalize need) statusAlts = false ∧
       testPattern (normalize need) productReqAlts = true)) ∧
    (detectIntent need = "prd" ↔
      (testPattern (normalize need) oooAlts = false ∧
       testPattern (normalize need) statusAlts = false ∧
       testPattern (normalize need) productReqAlts = false ∧
       testPattern (normalize need) prdAlts = true)) ∧
    (detectIntent need = "generic" ↔
      (testPattern (normalize need) oooAlts = false ∧
       testPattern (normalize need) statusAlts = false ∧
       testPattern (normalize need) productReqAlts = false ∧
       testPattern (normalize need) prdAlts = false)) ∧
    detectIntent (some "weekly update: i will be ooo friday") = "ooo" := by
  refine ⟨?_, ?_, ?_, ?_, ?_, by decide⟩ <;>
    · unfold detectIntent
      cases h1 : testPattern (normalize need) oooAlts <;>
        cases h2 : testPattern (normalize need) statusAlts <;>
          cases h3 : testPattern (normalize need) productReqAlts <;>
            cases h4 : testPattern (normalize need) prdAlts <;>
              simp [h1, h2, h3, h4]

/-- C8 witness: the determinism theorem applied at concrete inputs. -/
theorem builders_deterministic_witness :
    buildOOOPrompt "n" "t" "l" "f" = buildOOOPrompt "n" "t" "l" "f" :=
  (builders_deterministic "n" "t" "l" "f" "n" "t" "l" "f" rfl rfl rfl rfl).1

theorem pickLoop_cons {α : Type*} (f : α → Nat) (p : α) (l : List α) (acc : Option α × Nat) :
    pickLoop f (p :: l) acc = pickLoop f l (if f p > acc.2 then (some p, f p) else acc) := rfl

theorem maxOver_cons {α : Type*} (f : α → Nat) (p : α) (l : List α) :
    maxOver f (p :: l) = max (f p) (maxOver f l) := rfl

theorem pickLoop_snd {α : Type*} (f : α → Nat) (l : List α) (acc : Option α × Nat) :
    (pickLoop f l acc).2 = max acc.2 (maxOver f l) := by
  induction l generalizing acc with
  | nil => simp [pickLoop, maxOver]
  | cons p l ih =>
    rw [pickLoop_cons, ih, maxOver_cons]
    by_cases h : f p > acc.2 <;> simp [h] <;> omega

theorem pickLoop_stall {α : Type*} (f : α → Nat) (l : List α) (b : Option α) (s : Nat)
    (h : maxOver f l ≤ s) : pickLoop f l (b, s) = (b, s) := by
  induction l with
  | nil => rfl
  | cons p l ih =>
    rw [maxOver_cons] at h
    rw [pickLoop_cons]
    have h1 : ¬ f p > (b, s).2 := by simp; omega
    rw [if_neg h1]
    exact ih (by omega)

theorem pickLoop_find {α : Type*} (f : α → Nat) (l : List α) (b : Option α) (s : Nat)
    (h : s < maxOver f l) :
    (pickLoop f l (b, s)).1 = l.find? (fun p => f p == maxOver f l) := by
  induction l generalizing b s with
  | nil => simp [maxOver] at h
  | cons p l ih =>
    rw [pickLoop_cons]
    by_cases hp : f p > (b, s).2
    · rw [if_pos hp]
      rcases Nat.le_total (maxOver f l) (f p) with hl | hl
      · have hM : maxOver f (p :: l) = f p := by rw [maxOver_cons]; omega
        rw [pickLoop_stall f l (some p) (f p) hl]
        rw [List.find?_cons_of_pos _ (by simp [hM])]
      · rcases Nat.eq_or_lt_of_le hl with he | hlt
        · have hM : maxOver f (p :: l) = f p := by rw [maxOver_cons]; omega
          rw [pickLoop_stall f l (some p) (f p) (by omega)]
          rw [List.find?_cons_of_pos _ (by simp [hM])]
        · have hM : maxOver f (p :: l) = maxOver f l := by rw [maxOver_cons]; omega
          rw [hM, ih (some p) (f p) hlt]
          rw [List.find?_cons_of_neg _ (by simp; omega)]
    · rw [if_neg hp]
      simp only at hp
      rw [maxOver_cons] at h
      have hlt : s < maxOver f l := by omega
      have hM : maxOver f (p :: l) = maxOver f l := by rw [maxOver_cons]; omega
      rw [hM, ih b s hlt]
      rw [List.find?_cons_of_neg _ (by simp; omega)]

theorem pickLoop_mem {α : Type*} (f : α → Nat) (l : List α) (acc : Option α × Nat) (x : α)
    (h : (pickLoop f l acc).1 = some x) : acc.1 = some x ∨ x ∈ l := by
  induction l generalizing acc with
  | nil => exact Or.inl h
  | cons p l ih =>
    rw [pickLoop_cons] at h
    rcases ih _ h with h' | h'
    · by_cases hp : f p > acc.2
      · rw [if_pos hp] at h'
        simp only at h'
        right
        rw [← Option.some_inj.mp h']
        exact List.mem_cons_self p l
      · rw [if_neg hp] at h'
        exact Or.inl h'
    · exact Or.inr (List.mem_cons_of_mem p h')

theorem maxOver_attained {α : Type*} (f : α → Nat) (l : List α) (h : maxOver f l ≠ 0) :
    ∃ p ∈ l, f p = maxOver f l := by
  induction l with
  | nil => simp [maxOver] at h
  | cons p l ih =>
    rcases Nat.le_total (maxOver f l) (f p) with hle | hle
    · exact ⟨p, List.mem_cons_self p l, by rw [maxOver_cons]; omega⟩
    · by_cases h0 : maxOver f l = 0
      · exact ⟨p, List.mem_cons_self p l, by rw [maxOver_cons]; omega⟩
      · obtain ⟨q, hq, hfq⟩ := ih h0
        exact ⟨q, List.mem_cons_of_mem p hq, by rw [maxOver_cons]; omega⟩

theorem bestLibraryMatch_as_pickLoop (need : Option String) (prompts : List PromptRecord) :
    bestLibraryMatch need prompts =
      (if normalize need = "" ∨ prompts = [] then none
       else
        if (pickLoop
              (fun p => scoreAgainst (recordHaystack p) (splitTokens (normalize need)))
              prompts (none, 0)).2 > 0
        then (pickLoop
              (fun p => scoreAgainst (recordHaystack p) (splitTokens (normalize need)))
              prompts (none, 0)).1
        else none) := rfl

theorem scoreAgainst_eq_countP (hay : String) (tokens : List String) :
    scoreAgainst hay tokens = tokens.countP (fun tok => jsIncludes hay tok) := by
  have aux : ∀ (ts : List String) (n : Nat),
      ts.foldl (fun score tok => if jsIncludes hay tok then score + 1 else score) n
        = n + ts.countP (fun tok => jsIncludes hay tok) := by
    intro ts
    induction ts with
    | nil => intro n; simp
    | cons t ts ih =>
      intro n
      by_cases h : jsIncludes hay t
      · simp [List.foldl_cons, h, ih, List.countP_cons]
        omega
      · simp [List.foldl_cons, h, ih, List.countP_cons]
  simpa [scoreAgainst] using aux tokens 0

theorem scoreAgainst_replicate (hay tok : String) (k : Nat) :
    scoreAgainst hay (List.replicate k tok) = if jsIncludes hay tok then k else 0 := by
  rw [scoreAgainst_eq_countP]
  induction k with
  | zero => simp
  | succ k ih =>
    rw [List.replicate_succ, List.countP_cons, ih]
    by_cases h : jsIncludes hay tok <;> simp [h]

/-- C3: a record's score is the number of entries of the raw
(non-deduplicated) whitespace token list of the normalized need that occur as
a substring of the haystack built from the record's title, instruction and
output; a token repeated k times contributes k when it matches, and matching
is substring containment (e.g. `"log"` matches inside `"backlog"`), not
whole-word matching. -/
theorem recordScore_is_raw_token_count (need : Option String) (p : PromptRecord) :
    scoreAgainst (recordHaystack p) (splitTokens (normalize need))
      = (splitTokens (normalize need)).countP
          (fun tok => decide (tok.data <:+: (recordHaystack p).data)) ∧
    (∀ (k : Nat) (tok : String),
      scoreAgainst (recordHaystack p) (List.replicate k tok)
        = if jsIncludes (recordHaystack p) tok then k else 0) ∧
    jsIncludes "backlog" "log" = true :=
  ⟨scoreAgainst_eq_countP _ _, fun k tok => scoreAgainst_replicate _ _ k, by decide⟩

/-- C2: `bestLibraryMatch` agrees with the spec-side `specBestMatch` (first
record in library order attaining the maximum score), and it returns `none`
exactly when the normalized need is empty, the library is empty, or the best
score over all records is 0. -/
theorem bestLibraryMatch_spec (need : Option String) (prompts : List PromptRecord) :
    bestLibraryMatch need prompts = specBestMatch need prompts ∧
    (bestLibraryMatch need prompts = none ↔
      (normalize need = "" ∨ prompts = [] ∨
        maxScore (splitTokens (normalize need)) prompts = 0)) := by
  have hspec : specBestMatch need prompts =
      (if normalize need = "" ∨ prompts = [] then none
       else
        if maxOver (fun p => scoreAgainst (recordHaystack p) (splitTokens (normalize need)))
            prompts = 0
        then none
        else prompts.find?
          (fun p => scoreAgainst (recordHaystack p) (splitTokens (normalize need))
            == maxOver (fun p => scoreAgainst (recordHaystack p) (splitTokens (normalize need)))
                 prompts)) := rfl
  rw [bestLibraryMatch_as_pickLoop, hspec]
  set f : PromptRecord → Nat :=
    fun p => scoreAgainst (recordHaystack p) (splitTokens (normalize need)) with hfdef
  have hmax : maxScore (splitTokens (normalize need)) prompts = maxOver f prompts := rfl
  by_cases hc : normalize need = "" ∨ prompts = []
  · rw [if_pos hc, if_pos hc]
    exact ⟨rfl, ⟨fun _ => by tauto, fun _ => rfl⟩⟩
  · have hsnd : (pickLoop f prompts (none, 0)).2 = maxOver f prompts := by
      rw [pickLoop_snd]
      exact Nat.zero_max _
    rw [if_neg hc, if_neg hc, hsnd]
    by_cases hM : maxOver f prompts = 0
    · rw [if_neg (by omega : ¬ maxOver f prompts > 0), if_pos hM]
      refine ⟨rfl, ⟨fun _ => ?_, fun _ => rfl⟩⟩
      right; right
      rw [hmax]
      exact hM
    · have hMpos : 0 < maxOver f prompts := Nat.pos_of_ne_zero hM
      rw [if_pos hMpos, if_neg hM, pickLoop_find f prompts none 0 hMpos]
      refine ⟨rfl, ?_⟩
      obtain ⟨q, hq, hfq⟩ := maxOver_attained f prompts hM
      have hfind : (prompts.find? (fun p => f p == maxOver f prompts)).isSome :=
        List.find?_isSome.mpr ⟨q, hq, by simp [hfq]⟩
      constructor
      · intro hnone
        rw [hnone] at hfind
        simp at hfind
      · intro hrhs
        rcases hrhs with h | h | h
        · exact absurd (Or.inl h) hc
        · exact absurd (Or.inr h) hc
        · rw [hmax] at h
          exact absurd h hM

/-- C9: a non-none result of `bestLibraryMatch` is one of the records of the
library itself, returned unmodified (the matcher is a pure function of the
library, which it does not change). -/
theorem bestLibraryMatch_returns_member (need : Option String) (prompts : List PromptRecord)
    (p : PromptRecord) (h : bestLibraryMatch need prompts = some p) : p ∈ prompts := by
  rw [bestLibraryMatch_as_pickLoop] at h
  by_cases hc : normalize need = "" ∨ prompts = []
  · rw [if_pos hc] at h
    exact absurd h (by simp)
  · rw [if_neg hc] at h
    by_cases hpos :
        (pickLoop (fun p => scoreAgainst (recordHaystack p) (splitTokens (normalize need)))
          prompts (none, 0)).2 > 0
    · rw [if_pos hpos] at h
      rcases pickLoop_mem _ _ _ _ h with h' | h'
      · exact absurd h' (by simp)
      · exact h'
    · rw [if_neg hpos] at h
      exact absurd h (by simp)

/-- C9 witness: on a one-record library matched by the need, the returned
record is a member of the library. -/
theorem bestLibraryMatch_returns_member_witness : sprintRec ∈ [sprintRec] :=
  bestLibraryMatch_returns_member (some "help me plan a sprint") [sprintRec] sprintRec
    (by decide)

/-- C6: the core functions are total: `detectIntent` always lands in the
closed tag set and yields `"generic"` on empty, whitespace-only and
regex-metacharacter input, and the generation, matching and formatting
functions always return a value (they are total Lean functions, so none of
them can raise). -/
theorem core_functions_total (need : Option String) :
    (detectIntent need = "ooo" ∨ detectIntent need = "status_update" ∨
      detectIntent need = "product_req" ∨ detectIntent need = "prd" ∨
      detectIntent need = "generic") ∧
    detectIntent (some "") = "generic" ∧
    detectIntent (some " \t ") = "generic" ∧
    detectIntent (some ".*+?^$()[]\\|") = "generic" ∧
    (∀ tone length format : String, ∃ g : GeneratedPrompt,
      generateFromNeed (jsOrEmpty need) tone length format = g) ∧
    (∀ tone length format : String,
      (∃ a, buildOOOPrompt (jsOrEmpty need) tone length format = a) ∧
      (∃ b, buildGenericPrompt (jsOrEmpty need) tone length format = b) ∧
      (∃ c, buildStatusUpdatePrompt (jsOrEmpty need) tone length format = c) ∧
      (∃ d, buildProductReqPrompt (jsOrEmpty need) tone length format = d) ∧
      (∃ e, buildPrdPrompt (jsOrEmpty need) tone length format = e)) ∧
    (∀ prompts : List PromptRecord, ∃ r : Option PromptRecord,
      bestLibraryMatch need prompts = r) ∧
    (∀ p : PromptRecord, ∃ t : String, formatLibraryPrompt p = t) := by
  refine ⟨?_, by decide, by decide, by decide,
    fun tone length format => ⟨_, rfl⟩,
    fun tone length format => ⟨⟨_, rfl⟩, ⟨_, rfl⟩, ⟨_, rfl⟩, ⟨_, rfl⟩, ⟨_, rfl⟩⟩,
    fun prompts => ⟨_, rfl⟩, fun p => ⟨_, rfl⟩⟩
  unfold detectIntent
  cases h1 : testPattern (normalize need) oooAlts <;>
    cases h2 : testPattern (normalize need) statusAlts <;>
      cases h3 : testPattern (normalize need) productReqAlts <;>
        cases h4 : testPattern (normalize need) prdAlts <;>
          simp [h1, h2, h3, h4]

/-- C10: `normalize` coerces a nullish (falsy non-string) need to the empty
string, so `detectIntent` classifies it as `"generic"` and `bestLibraryMatch`
returns `none` on it for every library. -/
theorem nullish_need_coerced (prompts : List PromptRecord) :
    jsOrEmpty none = "" ∧
    normalize none = "" ∧
    detectIntent none = "generic" ∧
    bestLibraryMatch none prompts = none := by
  refine ⟨rfl, by decide, by decide, ?_⟩
  rw [bestLibraryMatch_as_pickLoop, if_pos (Or.inl (by decide))]

end PromptGen
